import Mathlib

/-!
# Verification of the AircraftPresets preset-loading state machine

A shallow embedding of `AircraftPresets::update`
(src/fbw-common/src/wasm/extra-backend/AircraftPresets/AircraftPresets.cpp)
and proofs about its per-tick behaviour.

Modelling conventions:
* C++ `double` quantities (elapsed times, script results, LVAR values) are
  modelled as exact rationals `ℚ`.
* The scripting collaborator `execute_calculator_code` is modelled as a pure
  per-tick oracle `evalScript : String → ℚ` returning the `fvalue` result.
* LVAR reads/writes and script evaluations are recorded in an event trace so
  that claims about "no script evaluated" / "no signal written" are statable.
* Logging (`LOG_*`, `std::cout`, the verbose flag reads) has no effect on
  state and is not modelled.
-/

namespace AircraftPresets

/-- One step of a preset procedure.  The step structure (fields `id`,
`description`, `isConditional`, `actionCode`, `expectedStateCheckCode`,
`delayAfter`) is the one accessed by `AircraftPresets.cpp`; the defining
header is not part of the sources, so field types follow the spec's data
model (`id` integer, `delayAfter` milliseconds). -/
structure ProcedureStep where
  id : Int
  description : String
  isConditional : Bool
  actionCode : String
  expectedStateCheckCode : String
  delayAfter : ℚ
deriving Repr, DecidableEq, Inhabited

/-- Mutable run state of the loader, the member variables of the
`AircraftPresets` class used by `update` (the class header is not in the
sources; fields and their uses are taken from the `.cpp`).
`currentProcedure` holds the steps of the bound procedure (a non-owning
pointer into the repository in C++). -/
structure LoaderState where
  isInitialized : Bool
  loadingIsActive : Bool
  currentProcedureID : Int
  currentProcedure : List ProcedureStep
  currentStep : Nat
  currentLoadingTime : ℚ
  currentDelay : ℚ
deriving Repr, DecidableEq, Inhabited

/-- The host-owned LVAR values the loader reads and writes:
`AIRCRAFT_PRESET_LOAD` (request), `AIRCRAFT_PRESET_LOAD_PROGRESS` and
`AIRCRAFT_PRESET_LOAD_CURRENT_ID`. -/
structure SimVars where
  request : Int
  progress : ℚ
  progressId : ℚ
deriving Repr, DecidableEq, Inhabited

/-- Per-tick environment: the ready gate, the `SIM ON GROUND` flag, the tick
delta time `pData->dt` in seconds, and the scripting collaborator returning
the `fvalue` of `execute_calculator_code` for a script string. -/
structure TickEnv where
  aircraftIsReady : Bool
  onGround : Bool
  dt : ℚ
  evalScript : String → ℚ

/-- Externally visible actions performed during one `update` call, in
order: script evaluations and LVAR writes. -/
inductive Event where
  | evalScript : String → Event
  | writeProgress : ℚ → Event
  | writeProgressId : ℚ → Event
  | writeRequest : Int → Event
deriving Repr, DecidableEq

/-- Result of one `update` call: new loader state, new LVAR values, the
event trace, and the C++ return value. -/
structure UpdateResult where
  loader : LoaderState
  sim : SimVars
  events : List Event
  ret : Bool
deriving Repr, DecidableEq

/-- Modelled from the spec: `helper::Math::almostEqual` (math_utils.hpp is
not in the sources); a tolerance-based floating-point comparison.  The
claims only use it abstractly; the tolerance value is a representative
small constant. -/
def epsilonAE : ℚ := 1 / 100000000

/-- Modelled from the spec: tolerance-based approximate equality used for
"approximately zero" tests on script results. -/
def almostEqual (a b : ℚ) : Bool := |a - b| ≤ epsilonAE

/-- Lines 129-184 of `AircraftPresets::update`: the current step is
examined and fired.  On entry the run timer has already advanced to `t`
(past the delay gate), `v1`/`ev1` carry the LVAR values and events of the
request re-assertion of line 109, and `s.currentStep <
s.currentProcedure.length` holds on every reachable call. -/
def fireStep (env : TickEnv) (s : LoaderState) (v1 : SimVars)
    (ev1 : List Event) (t : ℚ) : UpdateResult :=
  -- line 129: current step (index < size on this path)
  let st := s.currentProcedure.getD s.currentStep default
  -- line 132: calculate next delay
  let nextDelay : ℚ := t + st.delayAfter
  let prog : ℚ := (s.currentStep : ℚ) / (s.currentProcedure.length : ℚ)
  -- line 140: conditional step
  if st.isConditional then
    let f := env.evalScript st.actionCode
    let evs := ev1 ++ [.writeProgress prog, .writeProgressId st.id,
                       .evalScript st.actionCode]
    if !almostEqual 0 f then
      ⟨{ s with currentLoadingTime := t, currentDelay := 0,
                currentStep := s.currentStep + 1 },
       { v1 with progress := prog, progressId := (st.id : ℚ) }, evs, true⟩
    else
      ⟨{ s with currentLoadingTime := t, currentDelay := nextDelay },
       { v1 with progress := prog, progressId := (st.id : ℚ) }, evs, true⟩
  -- line 159: action step, expected-state check
  else if !st.expectedStateCheckCode.isEmpty
          && !almostEqual 0 (env.evalScript st.expectedStateCheckCode) then
    -- lines 165-173: state already set → skip action and delay
    ⟨{ s with currentLoadingTime := t, currentDelay := 0,
              currentStep := s.currentStep + 1 },
     v1, ev1 ++ [.evalScript st.expectedStateCheckCode], true⟩
  else
    -- lines 176-184: execute the action and advance
    ⟨{ s with currentLoadingTime := t, currentDelay := nextDelay,
              currentStep := s.currentStep + 1 },
     { v1 with progress := prog, progressId := (st.id : ℚ) },
     ev1 ++ (if st.expectedStateCheckCode.isEmpty then []
             else [.evalScript st.expectedStateCheckCode])
         ++ [.writeProgress prog, .writeProgressId (st.id : ℚ),
             .evalScript st.actionCode], true⟩

/-- Lines 106-184 of `AircraftPresets::update`: the request is positive,
the aircraft is on the ground, and a loading process is active. -/
def runActive (env : TickEnv) (s : LoaderState) (v : SimVars) : UpdateResult :=
  -- line 109: re-assert the request LVAR to the running procedure
  let v1 : SimVars := { v with request := s.currentProcedureID }
  let ev1 : List Event := [.writeRequest s.currentProcedureID]
  -- line 112: all steps done?
  if s.currentProcedure.length ≤ s.currentStep then
    ⟨{ s with loadingIsActive := false },
     { v1 with progress := 0, progressId := 0, request := 0 },
     ev1 ++ [.writeProgress 0, .writeProgressId 0, .writeRequest 0], true⟩
  else
    -- line 122: update run timer (dt seconds → milliseconds)
    let t : ℚ := s.currentLoadingTime + env.dt * 1000
    -- line 125: still inside the current delay window → wait
    if t ≤ s.currentDelay then
      ⟨{ s with currentLoadingTime := t }, v1, ev1, true⟩
    else
      fireStep env s v1 ev1 t

/-- Shallow embedding of `AircraftPresets::update` (AircraftPresets.cpp,
lines 55-193).  `repo` is `presetProcedures.getProcedure`.  The two
`updateFromSim` reads of the progress LVARs (lines 76-77) refresh a cache
whose value is never used and are omitted. -/
def update (repo : Int → Option (List ProcedureStep)) (env : TickEnv)
    (s : LoaderState) (v : SimVars) : UpdateResult :=
  -- line 56: not initialized → LOG_ERROR, return false
  if !s.isInitialized then ⟨s, v, [], false⟩
  -- line 61: aircraft not ready → return true
  else if !env.aircraftIsReady then ⟨s, v, [], true⟩
  -- line 65: has a request to load a preset been received?
  else if 0 < v.request then
    -- line 68: only allowed on the ground
    if !env.onGround then
      ⟨{ s with loadingIsActive := false }, { v with request := 0 },
       [.writeRequest 0], true⟩
    -- line 81: new request, needs to be initialized
    else if !s.loadingIsActive then
      match repo v.request with
      | none =>
        -- line 86: procedure ID does not exist
        ⟨{ s with loadingIsActive := false }, { v with request := 0 },
         [.writeRequest 0], true⟩
      | some proc =>
        -- lines 93-103: initialize new loading process
        ⟨{ s with currentProcedureID := v.request, currentProcedure := proc,
                  currentLoadingTime := 0, currentDelay := 0, currentStep := 0,
                  loadingIsActive := true },
         { v with progress := 0, progressId := 0 },
         [.writeProgress 0, .writeProgressId 0], true⟩
    else
      runActive env s v
  -- line 186: request is 0 (or negative) while a run is active → cancel
  else if s.loadingIsActive then
    ⟨{ s with loadingIsActive := false }, v, [], true⟩
  else
    ⟨s, v, [], true⟩

/-- Whether an event is a script evaluation. -/
def isEval : Event → Bool
  | .evalScript _ => true
  | _ => false

/-- Number of script evaluations in an event trace. -/
def countScriptEvals (es : List Event) : Nat := (es.filter isEval).length

/-- Iterate `update` a number of ticks with a fixed repository and
environment, threading loader state and LVAR values. -/
def updateIter (repo : Int → Option (List ProcedureStep)) (env : TickEnv) :
    Nat → LoaderState × SimVars → LoaderState × SimVars
  | 0, p => p
  | n + 1, p =>
    let r := update repo env p.1 p.2
    updateIter repo env n (r.loader, r.sim)
/-! ### Concrete fixtures for witnesses and counterexamples -/

/-- An action step with no expected-state check and delay `d` ms. -/
def actionStep (d : ℚ) : ProcedureStep :=
  { id := 7, description := "action", isConditional := false,
    actionCode := "ACT", expectedStateCheckCode := "", delayAfter := d }

/-- An action step with an expected-state check. -/
def checkedStep : ProcedureStep :=
  { id := 9, description := "checked action", isConditional := false,
    actionCode := "ACT", expectedStateCheckCode := "CHK", delayAfter := 50 }

/-- Environment: ready, on ground, 100 ms ticks, all scripts evaluate to 0. -/
def readyEnv : TickEnv :=
  { aircraftIsReady := true, onGround := true, dt := 1/10, evalScript := fun _ => 0 }

/-- Environment: ready but airborne. -/
def airborneEnv : TickEnv :=
  { aircraftIsReady := true, onGround := false, dt := 1/10, evalScript := fun _ => 0 }

/-- Environment: ready, on ground, all scripts evaluate to 1 (non-zero). -/
def readyEnvOne : TickEnv :=
  { aircraftIsReady := true, onGround := true, dt := 1/10, evalScript := fun _ => 1 }

/-- Idle initialized loader. -/
def idleLoader : LoaderState :=
  { isInitialized := true, loadingIsActive := false, currentProcedureID := 0,
    currentProcedure := [], currentStep := 0, currentLoadingTime := 0, currentDelay := 0 }

/-- Loader mid-run on procedure `proc` at step `k`, no delay pending. -/
def runningLoader (proc : List ProcedureStep) (k : Nat) : LoaderState :=
  { isInitialized := true, loadingIsActive := true, currentProcedureID := 1,
    currentProcedure := proc, currentStep := k, currentLoadingTime := 0, currentDelay := 0 }

/-- Repository holding `proc` under preset ID 1. -/
def oneRepo (proc : List ProcedureStep) : Int → Option (List ProcedureStep) :=
  fun i => if i = 1 then some proc else none

/-! ### The C7 scenario: 3 action steps, delays [100, 200, 0] ms, 50 ms ticks -/

/-- The three-step procedure of the scenario. -/
def procC7 : List ProcedureStep := [actionStep 100, actionStep 200, actionStep 0]

/-- 50 ms ticks, ready, on ground, scripts evaluate to 0. -/
def envC7 : TickEnv :=
  { aircraftIsReady := true, onGround := true, dt := 1/20, evalScript := fun _ => 0 }

/-- Loader and LVAR state right after the run-start tick for `procC7`. -/
def startC7 : LoaderState × SimVars :=
  updateIter (oneRepo procC7) envC7 1
    (idleLoader, { request := 1, progress := 0, progressId := 0 })

/-- State after `n` further 50 ms driving ticks. -/
def afterTicksC7 (n : Nat) : LoaderState × SimVars :=
  updateIter (oneRepo procC7) envC7 n startC7

/-! ### Lemmas shared by several claims -/

theorem fireStep_step_le (env : TickEnv) (s : LoaderState) (v1 : SimVars)
    (ev1 : List Event) (t : ℚ) :
    (fireStep env s v1 ev1 t).loader.currentStep ≤ s.currentStep + 1 := by
  unfold fireStep
  dsimp only
  split_ifs <;> simp

theorem fireStep_evals_le (env : TickEnv) (s : LoaderState) (v1 : SimVars)
    (ev1 : List Event) (t : ℚ) :
    countScriptEvals (fireStep env s v1 ev1 t).events
      ≤ countScriptEvals ev1 + 2 := by
  unfold fireStep countScriptEvals
  dsimp only
  split_ifs <;> simp [isEval]

/-- Claim C5: across every single invocation of `update`, `currentStep`
increases by at most 1, for every starting state and every combination of
request value, on-ground flag, tick delta, and script-evaluation results. -/
theorem update_currentStep_le_succ (repo : Int → Option (List ProcedureStep))
    (env : TickEnv) (s : LoaderState) (v : SimVars) :
    (update repo env s v).loader.currentStep ≤ s.currentStep + 1 := by
  unfold update runActive
  dsimp only
  repeat' split
  all_goals first | apply fireStep_step_le | simp | omega

/-- Claim C1, amended: every invocation of `update` performs at most two
script evaluations: at most one expected-state check plus at most one
action/condition evaluation. -/
theorem update_at_most_two_evals (repo : Int → Option (List ProcedureStep))
    (env : TickEnv) (s : LoaderState) (v : SimVars) :
    countScriptEvals (update repo env s v).events ≤ 2 := by
  unfold update runActive
  dsimp only
  repeat' split
  all_goals
    first
      | (apply le_trans (fireStep_evals_le ..); simp [countScriptEvals, isEval])
      | simp [countScriptEvals, isEval]

/-- Claim C1, counterexample: a single tick firing an action step whose
expected-state check evaluates to (approximately) zero evaluates two script
strings: the check and the action. -/
theorem update_two_evals_example :
    countScriptEvals
      (update (oneRepo [checkedStep]) readyEnv (runningLoader [checkedStep] 0)
        { request := 1, progress := 0, progressId := 0 }).events = 2 ∧
    ¬ (countScriptEvals
      (update (oneRepo [checkedStep]) readyEnv (runningLoader [checkedStep] 0)
        { request := 1, progress := 0, progressId := 0 }).events ≤ 1) := by
  have h : countScriptEvals
      (update (oneRepo [checkedStep]) readyEnv (runningLoader [checkedStep] 0)
        { request := 1, progress := 0, progressId := 0 }).events = 2 := by
    norm_num [update, runActive, fireStep, oneRepo, checkedStep, readyEnv,
      runningLoader, countScriptEvals, isEval, almostEqual, epsilonAE]
    decide
  exact ⟨h, by rw [h]; decide⟩


/-- Claim C4: on a processed tick with a positive request and the on-ground
flag false, the loader clears the request, deactivates any run, leaves
`currentStep` untouched and evaluates no script. -/
theorem update_airborne_reject (repo : Int → Option (List ProcedureStep))
    (env : TickEnv) (s : LoaderState) (v : SimVars)
    (h1 : s.isInitialized = true) (h2 : env.aircraftIsReady = true)
    (h3 : 0 < v.request) (h4 : env.onGround = false) :
    (update repo env s v).loader = { s with loadingIsActive := false } ∧
    (update repo env s v).sim.request = 0 ∧
    (update repo env s v).loader.currentStep = s.currentStep ∧
    countScriptEvals (update repo env s v).events = 0 := by
  simp [update, h1, h2, h3, h4, countScriptEvals, isEval]

/-- Claim C8: with the request signal 0 and no active run, `update` changes
nothing and performs no external action; iterating it any number of times
leaves loader state and LVARs identical. -/
theorem update_noop_idempotent (repo : Int → Option (List ProcedureStep))
    (env : TickEnv) (s : LoaderState) (v : SimVars)
    (h0 : v.request = 0) (h1 : s.loadingIsActive = false) :
    (update repo env s v).loader = s ∧ (update repo env s v).sim = v ∧
    (update repo env s v).events = [] ∧
    ∀ n : Nat, updateIter repo env n (s, v) = (s, v) := by
  have hstep : update repo env s v = ⟨s, v, [], (update repo env s v).ret⟩ := by
    unfold update
    split_ifs with a b c d e <;> simp_all
  refine ⟨by rw [hstep], by rw [hstep], by rw [hstep], ?_⟩
  intro n
  induction n with
  | zero => rfl
  | succ n ih =>
    show updateIter repo env n _ = _
    rw [hstep]
    exact ih

/-- Claim C9: a negative request value is handled by the `request <= 0`
branch: an active run is cancelled without advancing `currentStep`, with no
active run the call changes nothing, and no run is ever started. -/
theorem update_negative_request (repo : Int → Option (List ProcedureStep))
    (env : TickEnv) (s : LoaderState) (v : SimVars)
    (h1 : s.isInitialized = true) (h2 : env.aircraftIsReady = true)
    (hneg : v.request < 0) :
    (update repo env s v).loader.loadingIsActive = false ∧
    (update repo env s v).loader.currentStep = s.currentStep ∧
    (update repo env s v).sim = v ∧
    (update repo env s v).events = [] ∧
    (s.loadingIsActive = false → (update repo env s v).loader = s) := by
  have hnp : ¬ (0 < v.request) := by omega
  by_cases hact : s.loadingIsActive <;>
    simp [update, h1, h2, hnp, hact]

/-- Claim C3: an action step whose non-empty expected-state check evaluates
to a value not approximately zero advances `currentStep` by one, clears
`currentDelay`, and performs exactly one script evaluation — the check,
never the action. -/
theorem update_skip_ahead (repo : Int → Option (List ProcedureStep))
    (env : TickEnv) (s : LoaderState) (v : SimVars)
    (h1 : s.isInitialized = true) (h2 : env.aircraftIsReady = true)
    (h3 : 0 < v.request) (h4 : env.onGround = true) (h5 : s.loadingIsActive = true)
    (h6 : s.currentStep < s.currentProcedure.length)
    (h7 : s.currentDelay < s.currentLoadingTime + env.dt * 1000)
    (h8 : (s.currentProcedure.getD s.currentStep default).isConditional = false)
    (h9 : (s.currentProcedure.getD s.currentStep default).expectedStateCheckCode.isEmpty = false)
    (h10 : almostEqual 0
      (env.evalScript (s.currentProcedure.getD s.currentStep default).expectedStateCheckCode)
        = false) :
    (update repo env s v).loader.currentStep = s.currentStep + 1 ∧
    (update repo env s v).loader.currentDelay = 0 ∧
    (update repo env s v).events =
      [Event.writeRequest s.currentProcedureID,
       Event.evalScript
         (s.currentProcedure.getD s.currentStep default).expectedStateCheckCode] := by
  have hng : ¬ s.currentProcedure.length ≤ s.currentStep := not_le.mpr h6
  have hnw : ¬ (s.currentLoadingTime + env.dt * 1000 ≤ s.currentDelay) := not_le.mpr h7
  simp only [List.getD_eq_getElem?_getD] at h8 h9 h10
  simp [update, runActive, fireStep, h1, h2, h3, h4, h5, hng, hnw, h8, h9, h10]

/-- Claim C2, amended: on every abnormal termination — airborne abort,
external cancellation, preset-not-found — the run is deactivated but the
two progress outputs are left unchanged; they are zeroed only on run start
and on normal completion. -/
theorem update_abnormal_keeps_progress (repo : Int → Option (List ProcedureStep))
    (env : TickEnv) (s : LoaderState) (v : SimVars)
    (h1 : s.isInitialized = true) (h2 : env.aircraftIsReady = true)
    (habn : (0 < v.request ∧ env.onGround = false)
          ∨ (v.request ≤ 0 ∧ s.loadingIsActive = true)
          ∨ (0 < v.request ∧ env.onGround = true ∧ s.loadingIsActive = false
             ∧ repo v.request = none)) :
    (update repo env s v).sim.progress = v.progress ∧
    (update repo env s v).sim.progressId = v.progressId ∧
    (update repo env s v).loader.loadingIsActive = false := by
  rcases habn with ⟨h3, h4⟩ | ⟨h3, h4⟩ | ⟨h3, h4, h5, h6⟩
  · simp [update, h1, h2, h3, h4]
  · have hnp : ¬ (0 < v.request) := by omega
    simp [update, h1, h2, hnp, h4]
  · simp [update, h1, h2, h3, h4, h5, h6]

/-- Claim C2, counterexample: an airborne abort tick leaves a previously
written mid-run progress value of 1/2 untouched: the progress outputs are
not reset to zero on this abnormal termination. -/
theorem update_abort_keeps_nonzero_progress :
    ((update (oneRepo [actionStep 0]) airborneEnv (runningLoader [actionStep 0] 0)
        { request := 1, progress := 1/2, progressId := 9 }).sim.progress = 1/2 ∧
     ¬ ((update (oneRepo [actionStep 0]) airborneEnv (runningLoader [actionStep 0] 0)
        { request := 1, progress := 1/2, progressId := 9 }).sim.progress = 0) ∧
     (update (oneRepo [actionStep 0]) airborneEnv (runningLoader [actionStep 0] 0)
        { request := 1, progress := 1/2, progressId := 9 }).loader.loadingIsActive
       = false) := by
  norm_num [update, oneRepo, actionStep, airborneEnv, runningLoader]

/-- Claim C6: starting a zero-step procedure consumes one tick for
initialization; the immediately following tick takes the completion path:
progress outputs written 0, request cleared, run deactivated, and no
script evaluated on either tick. -/
theorem update_empty_procedure (repo : Int → Option (List ProcedureStep))
    (env1 env2 : TickEnv) (s : LoaderState) (v : SimVars)
    (h1 : s.isInitialized = true) (h2 : s.loadingIsActive = false)
    (hr : 0 < v.request) (hrep : repo v.request = some [])
    (e1r : env1.aircraftIsReady = true) (e1g : env1.onGround = true)
    (e2r : env2.aircraftIsReady = true) (e2g : env2.onGround = true) :
    (update repo env1 s v).loader.loadingIsActive = true ∧
    (update repo env1 s v).loader.currentStep = 0 ∧
    countScriptEvals (update repo env1 s v).events = 0 ∧
    (update repo env2 (update repo env1 s v).loader
      (update repo env1 s v).sim).sim.progress = 0 ∧
    (update repo env2 (update repo env1 s v).loader
      (update repo env1 s v).sim).sim.progressId = 0 ∧
    (update repo env2 (update repo env1 s v).loader
      (update repo env1 s v).sim).sim.request = 0 ∧
    (update repo env2 (update repo env1 s v).loader
      (update repo env1 s v).sim).loader.loadingIsActive = false ∧
    countScriptEvals (update repo env2 (update repo env1 s v).loader
      (update repo env1 s v).sim).events = 0 := by
  have hres : update repo env1 s v =
      ⟨{ s with currentProcedureID := v.request, currentProcedure := [],
                currentLoadingTime := 0, currentDelay := 0, currentStep := 0,
                loadingIsActive := true },
       { v with progress := 0, progressId := 0 },
       [.writeProgress 0, .writeProgressId 0], true⟩ := by
    simp [update, h1, h2, hr, hrep, e1r, e1g]
  rw [hres]
  simp [update, runActive, h1, hr, e2r, e2g, countScriptEvals, isEval]

/-- Claim C7, counterexample: the loader does not stay on step 0 for the
first two 50 ms ticks: the very first driving tick fires step 0 and
advances `currentStep` to 1 (the configured delay applies after a step
fires, not before). -/
theorem c7_first_tick_advances :
    ¬ ((afterTicksC7 1).1.currentStep = 0 ∧ (afterTicksC7 2).1.currentStep = 0) := by
  norm_num [afterTicksC7, startC7, updateIter, update, runActive, fireStep,
    oneRepo, procC7, actionStep, envC7, idleLoader, almostEqual, epsilonAE]

/-- Claim C7, amended: with delays [100, 200, 0] ms and 50 ms ticks the
loader fires step 0 on the first driving tick, stays on step 1 through
ticks 2-3 (waiting out 100 ms), fires step 1 on tick 4, stays on step 2
through ticks 5-8 (waiting out 200 ms), and reaches `currentStep = 3` on
tick 9, when the accumulated time 450 ms exceeds 100+200 ms. -/
theorem c7_trace :
    (afterTicksC7 1).1.currentStep = 1 ∧ (afterTicksC7 2).1.currentStep = 1 ∧
    (afterTicksC7 3).1.currentStep = 1 ∧ (afterTicksC7 4).1.currentStep = 2 ∧
    (afterTicksC7 5).1.currentStep = 2 ∧ (afterTicksC7 6).1.currentStep = 2 ∧
    (afterTicksC7 7).1.currentStep = 2 ∧ (afterTicksC7 8).1.currentStep = 2 ∧
    (afterTicksC7 9).1.currentStep = 3 ∧
    (afterTicksC7 9).1.currentLoadingTime = 450 ∧
    100 + 200 < (afterTicksC7 9).1.currentLoadingTime := by
  norm_num [afterTicksC7, startC7, updateIter, update, runActive, fireStep,
    oneRepo, procC7, actionStep, envC7, idleLoader, almostEqual, epsilonAE]

/-- A fraction of naturals with numerator below denominator lies in [0,1). -/
theorem progress_frac_bounds (a b : Nat) (h : a < b) :
    0 ≤ (a : ℚ) / b ∧ (a : ℚ) / b < 1 := by
  have hb : (0 : ℚ) < b := by
    exact_mod_cast Nat.lt_of_le_of_lt (Nat.zero_le a) h
  constructor
  · positivity
  · rw [div_lt_one hb]
    exact_mod_cast h

/-- Progress writes of `fireStep` are either inherited from `ev1` or the
mid-run fraction `currentStep / size`. -/
theorem fireStep_writeProgress (env : TickEnv) (s : LoaderState) (v1 : SimVars)
    (ev1 : List Event) (t : ℚ) (q : ℚ)
    (h : Event.writeProgress q ∈ (fireStep env s v1 ev1 t).events) :
    Event.writeProgress q ∈ ev1 ∨
    q = (s.currentStep : ℚ) / (s.currentProcedure.length : ℚ) := by
  unfold fireStep at h
  dsimp only at h
  split_ifs at h <;> simp_all

/-- Progress writes of `runActive` are 0 (completion) or the mid-run
fraction, the latter only with `currentStep` below the procedure size. -/
theorem runActive_writeProgress (env : TickEnv) (s : LoaderState) (v : SimVars)
    (q : ℚ) (h : Event.writeProgress q ∈ (runActive env s v).events) :
    q = 0 ∨ (s.currentStep < s.currentProcedure.length ∧
             q = (s.currentStep : ℚ) / (s.currentProcedure.length : ℚ)) := by
  unfold runActive at h
  dsimp only at h
  split_ifs at h with hdone hwait
  · simp_all
  · simp_all
  · rcases fireStep_writeProgress _ _ _ _ _ _ h with h' | h'
    · simp_all
    · exact Or.inr ⟨by omega, h'⟩

/-- Claim C10: every fractional-progress value written during a tick lies in
[0, 1); a mid-run write happens only with `currentStep` strictly below the
procedure size, so the divisor is strictly positive. -/
theorem update_progress_writes_bounded (repo : Int → Option (List ProcedureStep))
    (env : TickEnv) (s : LoaderState) (v : SimVars) (q : ℚ)
    (h : Event.writeProgress q ∈ (update repo env s v).events) :
    0 ≤ q ∧ q < 1 ∧
    (q = 0 ∨ (s.currentStep < s.currentProcedure.length ∧
              0 < s.currentProcedure.length ∧
              q = (s.currentStep : ℚ) / (s.currentProcedure.length : ℚ))) := by
  have hq : q = 0 ∨ (s.currentStep < s.currentProcedure.length ∧
      q = (s.currentStep : ℚ) / (s.currentProcedure.length : ℚ)) := by
    unfold update at h
    repeat' split at h
    all_goals first
      | exact runActive_writeProgress _ _ _ _ h
      | simp_all
  rcases hq with rfl | ⟨hlt, rfl⟩
  · exact ⟨le_refl 0, zero_lt_one, Or.inl rfl⟩
  · obtain ⟨hge, hlt1⟩ := progress_frac_bounds _ _ hlt
    exact ⟨hge, hlt1, Or.inr ⟨hlt, by omega, rfl⟩⟩

/-- Claim C2 witness: the amended theorem applied at a concrete airborne-abort input. -/
theorem update_abnormal_keeps_progress_witness :
    (update (oneRepo [actionStep 0]) airborneEnv (runningLoader [actionStep 0] 0)
      { request := 1, progress := 1/2, progressId := 9 }).sim.progress = 1/2 ∧
    (update (oneRepo [actionStep 0]) airborneEnv (runningLoader [actionStep 0] 0)
      { request := 1, progress := 1/2, progressId := 9 }).sim.progressId = 9 ∧
    (update (oneRepo [actionStep 0]) airborneEnv (runningLoader [actionStep 0] 0)
      { request := 1, progress := 1/2, progressId := 9 }).loader.loadingIsActive
      = false :=
  update_abnormal_keeps_progress (oneRepo [actionStep 0]) airborneEnv
    (runningLoader [actionStep 0] 0) { request := 1, progress := 1/2, progressId := 9 }
    rfl rfl (Or.inl ⟨by decide, rfl⟩)

/-- Claim C3 witness: the theorem applied at a concrete skip-ahead input. -/
theorem update_skip_ahead_witness :
    (update (oneRepo [checkedStep]) readyEnvOne (runningLoader [checkedStep] 0)
      { request := 1, progress := 0, progressId := 0 }).loader.currentStep = 1 ∧
    (update (oneRepo [checkedStep]) readyEnvOne (runningLoader [checkedStep] 0)
      { request := 1, progress := 0, progressId := 0 }).loader.currentDelay = 0 ∧
    (update (oneRepo [checkedStep]) readyEnvOne (runningLoader [checkedStep] 0)
      { request := 1, progress := 0, progressId := 0 }).events =
      [Event.writeRequest 1, Event.evalScript "CHK"] :=
  update_skip_ahead (oneRepo [checkedStep]) readyEnvOne (runningLoader [checkedStep] 0)
    { request := 1, progress := 0, progressId := 0 }
    rfl rfl (by decide) rfl rfl (by decide)
    (by norm_num [runningLoader, readyEnvOne])
    rfl (by decide)
    (by norm_num [almostEqual, epsilonAE, readyEnvOne, runningLoader, checkedStep])

/-- Claim C4 witness: the theorem applied at a concrete airborne request. -/
theorem update_airborne_reject_witness :
    (update (fun _ => none) airborneEnv idleLoader
      { request := 5, progress := 0, progressId := 0 }).loader
        = { idleLoader with loadingIsActive := false } ∧
    (update (fun _ => none) airborneEnv idleLoader
      { request := 5, progress := 0, progressId := 0 }).sim.request = 0 ∧
    (update (fun _ => none) airborneEnv idleLoader
      { request := 5, progress := 0, progressId := 0 }).loader.currentStep
        = idleLoader.currentStep ∧
    countScriptEvals (update (fun _ => none) airborneEnv idleLoader
      { request := 5, progress := 0, progressId := 0 }).events = 0 :=
  update_airborne_reject (fun _ => none) airborneEnv idleLoader
    { request := 5, progress := 0, progressId := 0 } rfl rfl (by decide) rfl

/-- Claim C6 witness: the theorem applied to a concrete empty procedure. -/
theorem update_empty_procedure_witness :
    (update (oneRepo []) readyEnv idleLoader
      { request := 1, progress := 3, progressId := 4 }).loader.loadingIsActive = true ∧
    (update (oneRepo []) readyEnv idleLoader
      { request := 1, progress := 3, progressId := 4 }).loader.currentStep = 0 ∧
    countScriptEvals (update (oneRepo []) readyEnv idleLoader
      { request := 1, progress := 3, progressId := 4 }).events = 0 ∧
    (update (oneRepo []) readyEnv
      (update (oneRepo []) readyEnv idleLoader
        { request := 1, progress := 3, progressId := 4 }).loader
      (update (oneRepo []) readyEnv idleLoader
        { request := 1, progress := 3, progressId := 4 }).sim).sim.progress = 0 ∧
    (update (oneRepo []) readyEnv
      (update (oneRepo []) readyEnv idleLoader
        { request := 1, progress := 3, progressId := 4 }).loader
      (update (oneRepo []) readyEnv idleLoader
        { request := 1, progress := 3, progressId := 4 }).sim).sim.progressId = 0 ∧
    (update (oneRepo []) readyEnv
      (update (oneRepo []) readyEnv idleLoader
        { request := 1, progress := 3, progressId := 4 }).loader
      (update (oneRepo []) readyEnv idleLoader
        { request := 1, progress := 3, progressId := 4 }).sim).sim.request = 0 ∧
    (update (oneRepo []) readyEnv
      (update (oneRepo []) readyEnv idleLoader
        { request := 1, progress := 3, progressId := 4 }).loader
      (update (oneRepo []) readyEnv idleLoader
        { request := 1, progress := 3, progressId := 4 }).sim).loader.loadingIsActive
      = false ∧
    countScriptEvals (update (oneRepo []) readyEnv
      (update (oneRepo []) readyEnv idleLoader
        { request := 1, progress := 3, progressId := 4 }).loader
      (update (oneRepo []) readyEnv idleLoader
        { request := 1, progress := 3, progressId := 4 }).sim).events = 0 :=
  update_empty_procedure (oneRepo []) readyEnv readyEnv idleLoader
    { request := 1, progress := 3, progressId := 4 }
    rfl rfl (by decide) (by decide) rfl rfl rfl rfl

/-- Claim C8 witness: the theorem applied at a concrete idle state, iterated 5 ticks. -/
theorem update_noop_idempotent_witness :
    (update (fun _ => none) readyEnv idleLoader
      { request := 0, progress := 0, progressId := 0 }).loader = idleLoader ∧
    (update (fun _ => none) readyEnv idleLoader
      { request := 0, progress := 0, progressId := 0 }).sim
      = { request := 0, progress := 0, progressId := 0 } ∧
    (update (fun _ => none) readyEnv idleLoader
      { request := 0, progress := 0, progressId := 0 }).events = [] ∧
    updateIter (fun _ => none) readyEnv 5
      (idleLoader, { request := 0, progress := 0, progressId := 0 })
      = (idleLoader, { request := 0, progress := 0, progressId := 0 }) :=
  ⟨(update_noop_idempotent (fun _ => none) readyEnv idleLoader
      { request := 0, progress := 0, progressId := 0 } rfl rfl).1,
   (update_noop_idempotent (fun _ => none) readyEnv idleLoader
      { request := 0, progress := 0, progressId := 0 } rfl rfl).2.1,
   (update_noop_idempotent (fun _ => none) readyEnv idleLoader
      { request := 0, progress := 0, progressId := 0 } rfl rfl).2.2.1,
   (update_noop_idempotent (fun _ => none) readyEnv idleLoader
      { request := 0, progress := 0, progressId := 0 } rfl rfl).2.2.2 5⟩

/-- Claim C9 witness: the theorem applied at a concrete negative request mid-run. -/
theorem update_negative_request_witness :
    (update (fun _ => none) readyEnv (runningLoader [actionStep 0] 0)
      { request := -2, progress := 0, progressId := 0 }).loader.loadingIsActive
      = false ∧
    (update (fun _ => none) readyEnv (runningLoader [actionStep 0] 0)
      { request := -2, progress := 0, progressId := 0 }).loader.currentStep
      = (runningLoader [actionStep 0] 0).currentStep ∧
    (update (fun _ => none) readyEnv (runningLoader [actionStep 0] 0)
      { request := -2, progress := 0, progressId := 0 }).sim
      = { request := -2, progress := 0, progressId := 0 } ∧
    (update (fun _ => none) readyEnv (runningLoader [actionStep 0] 0)
      { request := -2, progress := 0, progressId := 0 }).events = [] ∧
    ((runningLoader [actionStep 0] 0).loadingIsActive = false →
      (update (fun _ => none) readyEnv (runningLoader [actionStep 0] 0)
        { request := -2, progress := 0, progressId := 0 }).loader
        = runningLoader [actionStep 0] 0) :=
  update_negative_request (fun _ => none) readyEnv (runningLoader [actionStep 0] 0)
    { request := -2, progress := 0, progressId := 0 } rfl rfl (by decide)

/-- Claim C10 witness: the theorem applied to a concrete mid-run progress write of 1/2. -/
theorem update_progress_writes_bounded_witness :
    0 ≤ (1/2 : ℚ) ∧ (1/2 : ℚ) < 1 ∧
    ((1/2 : ℚ) = 0 ∨
      ((runningLoader [actionStep 0, actionStep 5] 1).currentStep <
         (runningLoader [actionStep 0, actionStep 5] 1).currentProcedure.length ∧
       0 < (runningLoader [actionStep 0, actionStep 5] 1).currentProcedure.length ∧
       (1/2 : ℚ) =
         ((runningLoader [actionStep 0, actionStep 5] 1).currentStep : ℚ) /
           ((runningLoader [actionStep 0, actionStep 5] 1).currentProcedure.length : ℚ))) :=
  update_progress_writes_bounded (oneRepo [actionStep 0, actionStep 5]) readyEnv
    (runningLoader [actionStep 0, actionStep 5] 1)
    { request := 1, progress := 0, progressId := 0 } (1/2)
    (by norm_num [update, runActive, fireStep, oneRepo, runningLoader, actionStep,
      readyEnv, show "".isEmpty = true from rfl])

end AircraftPresets
